import Mathlib

/-!
Shallow embedding of the real-time chat/presence core of the
mentor-matrix backend (src/src/socket/socket.js), together with the
payload shape of the HTTP message controller that shares the
`receiveMessage` broadcast. Shared mutable maps become functions
`String → Option _`; wall-clock time is an explicit `Nat` parameter in
milliseconds; the external user store is a function
`String → Option StoredUser`. Each socket event handler becomes a pure
function from server state (plus explicit time/store inputs) to a new
server state and a list of emitted actions.
-/

namespace MentorMatrix

/-- Profile fields selected from the user store by
`User.findById(userId).select('name email avatar')`. -/
structure StoredUser where
  name : String
  email : String
  avatar : String
deriving DecidableEq, Repr

/-- Snapshot stored in `userCache` and returned by `getUserDetails`:
`{_id, name, email, avatar}`. -/
structure CachedUser where
  _id : String
  name : String
  email : String
  avatar : String
deriving DecidableEq, Repr

/-- Sender object attached to a `receiveMessage` broadcast. The socket
handler emits either the cached profile (all four fields) or the
fallback object `{_id: userId, name: "Unknown User"}`, which carries no
email/avatar keys; absent keys are `none`. -/
structure Sender where
  _id : String
  name : String
  email : Option String
  avatar : Option String
deriving DecidableEq, Repr

/-- Sender object built from a cached profile. -/
def CachedUser.toSender (c : CachedUser) : Sender :=
  ⟨c._id, c.name, some c.email, some c.avatar⟩

/-- Fallback sender `{ _id: userId, name: "Unknown User" }` used when
`getUserDetails` returns null. -/
def fallbackSender (userId : String) : Sender :=
  ⟨userId, "Unknown User", none, none⟩

/-- Entry of `messageRateLimits`: `{ count, timestamp }`, where
`timestamp` is the wall-clock start of the current 1-second window. -/
structure RateEntry where
  count : Nat
  timestamp : Nat
deriving DecidableEq, Repr

/-- Payload of a `receiveMessage` broadcast. The socket handler emits
`{chatId, senderId, sender, content, createdAt}` (no `status` key, so
`status = none` there); the HTTP controller additionally includes
`status: 'sent'`. -/
structure MessagePayload where
  chatId : String
  senderId : String
  sender : Sender
  content : String
  createdAt : Nat
  status : Option String
deriving DecidableEq, Repr

/-- Acknowledgement payload passed to a supplied `callback`. -/
structure AckPayload where
  success : Bool
  message : String
deriving DecidableEq, Repr

/-- Outbound events the embedded handlers emit. -/
inductive SEvent where
  | userOnline (id : String)
  | userOffline (id : String)
  | receiveMessage (m : MessagePayload)
  | messagesRead (chatId userId : String)
  | typing (chatId userName : String)
  | stopTyping (chatId userName : String)
  | errorEvent (message code : String)
deriving DecidableEq, Repr

/-- Observable actions of a handler: emit to the originating socket
(`socket.emit`), emit to every transport member of a room
(`io.to(room).emit`), emit to everyone except the originating socket
(`socket.broadcast.emit`), invoke the supplied acknowledgement
callback, or call the persistence bridge (`Message.create`). The
socket-level `sendMessage` handler never produces a `persist` action;
only the HTTP controller does. -/
inductive Action where
  | toSocket (sid : String) (e : SEvent)
  | toRoom (room : String) (e : SEvent)
  | broadcastExcept (sid : String) (e : SEvent)
  | ack (p : AckPayload)
  | persist (chatId senderId content : String)
deriving DecidableEq, Repr

/-- Payload of a socket `sendMessage` event; `none` models an absent
key in the destructured `{ chatId, content }`. -/
structure SendPayload where
  chatId : Option String
  content : Option String
deriving DecidableEq, Repr

/-- JavaScript falsiness of an optional string field: `undefined` or
the empty string. -/
def falsyStr : Option String → Bool
  | none => true
  | some s => s = ""

/-- Shared module-level state of socket.js: the maps `onlineUsers`,
`socketIdToUserId`, `userRooms`, `messageRateLimits`, `userCache`
(an entry records its value and its scheduled eviction time
`insertionTime + TTL`), plus the transport-level room membership
maintained by `socket.join` / `socket.leave` (room → set of socket
ids). -/
structure ServerState where
  onlineUsers : String → Option String
  socketIdToUserId : String → Option String
  userRooms : String → Option (Finset String)
  messageRateLimits : String → Option RateEntry
  userCache : String → Option (CachedUser × Nat)
  transportRooms : String → Finset String

/-- Point update of a string-keyed map. -/
def upd {α : Type} (m : String → Option α) (k : String) (v : α) :
    String → Option α :=
  fun x => if x = k then some v else m x

/-- Point deletion from a string-keyed map. -/
def del {α : Type} (m : String → Option α) (k : String) :
    String → Option α :=
  fun x => if x = k then none else m x

/-- Room-management helper `addUserToRoom(userId, chatId)`: create the
user's set if absent, then add `chatId`. -/
def addUserToRoom (rooms : String → Option (Finset String))
    (userId chatId : String) : String → Option (Finset String) :=
  fun u =>
    if u = userId then some (insert chatId ((rooms userId).getD ∅))
    else rooms u

/-- Room-management helper `removeUserFromRoom(userId, chatId)`: delete
`chatId` from the user's set if one exists; if the set is then empty,
delete the user's entry entirely. A user with no entry is left
untouched. -/
def removeUserFromRoom (rooms : String → Option (Finset String))
    (userId chatId : String) : String → Option (Finset String) :=
  fun u =>
    if u = userId then
      match rooms userId with
      | none => none
      | some s =>
        let s' := s.erase chatId
        if s' = ∅ then none else some s'
    else rooms u

/-- Rate limiter `isRateLimited(userId)` acting on the user's
`messageRateLimits` entry at wall-clock time `now`. A missing entry
defaults to `{count: 0, timestamp: now}`. Within 1000ms of the window
start the count is incremented and the call is limited once the count
exceeds 5; otherwise a new window starts with count 1. The increment
mutates the stored object in place, so it persists even on the
rejection path (which returns before `set`). Returns
(limited?, new entry). -/
def isRateLimited (entry : Option RateEntry) (now : Nat) :
    Bool × RateEntry :=
  let e := entry.getD ⟨0, now⟩
  if now - e.timestamp < 1000 then
    let e' : RateEntry := ⟨e.count + 1, e.timestamp⟩
    if e'.count > 5 then (true, e') else (false, e')
  else (false, ⟨1, now⟩)

/-- Identity resolution `socketIdToUserId.get(socket.id) || socket.id`:
the bound userId when one exists and is truthy, else the connection id
itself. -/
def resolveId (m : String → Option String) (sid : String) : String :=
  match m sid with
  | some u => if u = "" then sid else u
  | none => sid

/-- Cache lookup at time `now`. The source checks `userCache.has`,
with eviction performed by a one-shot timer scheduled at
insertion + TTL; an entry is therefore visible exactly while
`now < evictionTime`. -/
def cacheGet (cache : String → Option (CachedUser × Nat)) (now : Nat)
    (userId : String) : Option CachedUser :=
  match cache userId with
  | some (c, exp) => if now < exp then some c else none
  | none => none

/-- Cache TTL: 5 minutes in milliseconds. -/
def TTL_MS : Nat := 5 * 60 * 1000

/-- Result of `getUserDetails`: the returned profile (null on a store
miss or store error), the cache after the call, and whether the store
was consulted. -/
structure FetchResult where
  result : Option CachedUser
  cache : String → Option (CachedUser × Nat)
  storeConsulted : Bool

/-- Profile lookup `getUserDetails(userId)` at time `now`: return the
cached entry when present (without consulting the store); otherwise
fetch from the store and, on success, cache the snapshot with a
one-shot eviction scheduled at `now + TTL_MS`. A store miss (or store
error, which also yields null) is not cached. -/
def getUserDetails (store : String → Option StoredUser)
    (cache : String → Option (CachedUser × Nat)) (now : Nat)
    (userId : String) : FetchResult :=
  match cacheGet cache now userId with
  | some c => ⟨some c, cache, false⟩
  | none =>
    match store userId with
    | some u =>
      let c : CachedUser := ⟨userId, u.name, u.email, u.avatar⟩
      ⟨some c, upd cache userId (c, now + TTL_MS), true⟩
    | none => ⟨none, cache, true⟩

/-- Authenticate handler: when the supplied `userId` is truthy, bind
`socket.id → userId` and record `onlineUsers[userId] = socket.id`,
then pre-fetch the user's profile into the cache; a falsy `userId` is
silently ignored. -/
def authenticate (store : String → Option StoredUser) (now : Nat)
    (st : ServerState) (sid userId : String) : ServerState :=
  if userId = "" then st
  else
    let st' := { st with
      socketIdToUserId := upd st.socketIdToUserId sid userId,
      onlineUsers := upd st.onlineUsers userId sid }
    { st' with
      userCache := (getUserDetails store st'.userCache now userId).cache }

/-- joinChat handler: resolve the identity, subscribe the socket to the
room at transport level (`socket.join`), and record the room in the
resolved identity's membership set. -/
def joinChat (st : ServerState) (sid chatId : String) : ServerState :=
  let userId := resolveId st.socketIdToUserId sid
  { st with
    transportRooms := fun r =>
      if r = chatId then insert sid (st.transportRooms chatId)
      else st.transportRooms r,
    userRooms := addUserToRoom st.userRooms userId chatId }

/-- leaveChat handler: resolve the identity, unsubscribe the socket
from the room at transport level (`socket.leave`), and remove the room
from the resolved identity's membership set. -/
def leaveChat (st : ServerState) (sid chatId : String) : ServerState :=
  let userId := resolveId st.socketIdToUserId sid
  { st with
    transportRooms := fun r =>
      if r = chatId then (st.transportRooms chatId).erase sid
      else st.transportRooms r,
    userRooms := removeUserFromRoom st.userRooms userId chatId }

/-- sendMessage handler: reject with MISSING_FIELDS when `chatId` or
`content` is falsy; resolve the identity; reject with RATE_LIMIT when
the rate limiter fires (the incremented count persists either way);
otherwise look up the sender profile (falling back to
`{_id, name: "Unknown User"}` when it is null), broadcast
`receiveMessage` to the room via `io.to(chatId)`, and invoke the
callback when one was supplied. No persistence-bridge call is made. -/
def sendMessage (store : String → Option StoredUser) (now : Nat)
    (st : ServerState) (sid : String) (p : SendPayload)
    (hasCallback : Bool) : ServerState × List Action :=
  if falsyStr p.chatId || falsyStr p.content then
    (st, [.toSocket sid
      (.errorEvent "Chat ID and content are required." "MISSING_FIELDS")])
  else
    let chatId := p.chatId.getD ""
    let content := p.content.getD ""
    let userId := resolveId st.socketIdToUserId sid
    let rl := isRateLimited (st.messageRateLimits userId) now
    let st' := { st with
      messageRateLimits := upd st.messageRateLimits userId rl.2 }
    if rl.1 then
      (st', [.toSocket sid
        (.errorEvent "Rate limit exceeded. Please slow down." "RATE_LIMIT")])
    else
      let fr := getUserDetails store st'.userCache now userId
      let st'' := { st' with userCache := fr.cache }
      let sender := match fr.result with
        | some c => c.toSender
        | none => fallbackSender userId
      let msg : MessagePayload := ⟨chatId, userId, sender, content, now, none⟩
      let acts := [Action.toRoom chatId (.receiveMessage msg)]
      let acts := if hasCallback
        then acts ++ [Action.ack ⟨true, "Message sent"⟩] else acts
      (st'', acts)

/-- markMessagesRead handler: resolve the identity and broadcast
`messagesRead {chatId, userId}` to the room; no state is changed and no
persistence call is made. -/
def markMessagesRead (st : ServerState) (sid chatId : String) :
    ServerState × List Action :=
  let userId := resolveId st.socketIdToUserId sid
  (st, [.toRoom chatId (.messagesRead chatId userId)])

/-- Disconnect handler: resolve the identity; when it is truthy, delete
its `onlineUsers` entry and the socket's binding; delete the socket's
own `onlineUsers` entry; issue a transport-level leave for each room in
the resolved identity's membership set; delete that membership entry;
and broadcast `userOffline` with the resolved identity to all other
connections. -/
def disconnect (st : ServerState) (sid : String) :
    ServerState × List Action :=
  let userId := resolveId st.socketIdToUserId sid
  let st1 :=
    if userId ≠ "" then
      { st with
        onlineUsers := del st.onlineUsers userId,
        socketIdToUserId := del st.socketIdToUserId sid }
    else st
  let st2 := { st1 with onlineUsers := del st1.onlineUsers sid }
  let rooms := (st2.userRooms userId).getD ∅
  let st3 := { st2 with
    transportRooms := fun r =>
      if r ∈ rooms then (st2.transportRooms r).erase sid
      else st2.transportRooms r }
  let st4 := { st3 with userRooms := del st3.userRooms userId }
  (st4, [.broadcastExcept sid (.userOffline userId)])

/-- HTTP `sendMessage` controller payload (message.controller): after
persisting via `Message.create`, it broadcasts `receiveMessage` with
`{_id, chatId, sender: {_id, name}, content, createdAt, status: 'sent'}`.
Modelled here only for its broadcast payload shape: it carries
`status = some "sent"`, unlike the socket handler's payload. -/
def httpMessagePayload (chatId senderId senderName content : String)
    (createdAt : Nat) : MessagePayload :=
  ⟨chatId, senderId, ⟨senderId, senderName, none, none⟩, content,
    createdAt, some "sent"⟩

/-- Delivery semantics of an action for a given target connection:
`toSocket` reaches only that socket, `toRoom` reaches every transport
member of the room (the sender included when it is a member), and
`broadcastExcept` reaches everyone but the originating socket. -/
def receives (rooms : String → Finset String) (target : String) :
    Action → Option SEvent
  | .toSocket s e => if s = target then some e else none
  | .toRoom r e => if target ∈ rooms r then some e else none
  | .broadcastExcept s e => if s = target then none else some e
  | .ack _ => none
  | .persist _ _ _ => none

/-- Join/leave operations on a fixed (user, room) pair. -/
inductive RoomOp where
  | join
  | leave
deriving DecidableEq, Repr

/-- Apply one join/leave operation for the pair (userId, chatId). -/
def applyRoomOp (rooms : String → Option (Finset String))
    (userId chatId : String) : RoomOp → String → Option (Finset String)
  | .join => addUserToRoom rooms userId chatId
  | .leave => removeUserFromRoom rooms userId chatId

/-- Apply a sequence of join/leave operations for the pair
(userId, chatId), first operation first. -/
def applyRoomOps (rooms : String → Option (Finset String))
    (userId chatId : String) : List RoomOp → String → Option (Finset String)
  | [] => rooms
  | op :: ops => applyRoomOps (applyRoomOp rooms userId chatId op)
      userId chatId ops

/-- Run a sequence of rate-limiter calls at the given times, first call
first; returns the list of limited-flags and the final entry. -/
def runRateCalls (entry : Option RateEntry) : List Nat →
    List Bool × Option RateEntry
  | [] => ([], entry)
  | t :: ts =>
    let r := isRateLimited entry t
    let rest := runRateCalls (some r.2) ts
    (r.1 :: rest.1, rest.2)

/-- Apply a sequence of authenticate events for one connection, first
event first. -/
def applyAuths (store : String → Option StoredUser) (now : Nat)
    (st : ServerState) (sid : String) : List String → ServerState
  | [] => st
  | u :: us => applyAuths store now (authenticate store now st sid u) sid us

/-- Last truthy (non-empty) userId of an authenticate sequence, if
any. -/
def lastTruthy (l : List String) : Option String :=
  (l.filter (fun u => u ≠ "")).getLast?

/-- Empty server state: all maps empty, no transport rooms. -/
def emptyState : ServerState :=
  ⟨fun _ => none, fun _ => none, fun _ => none, fun _ => none,
   fun _ => none, fun _ => ∅⟩

/-- Concrete user store with the single user "u1". -/
def store1 : String → Option StoredUser :=
  fun u => if u = "u1" then some ⟨"Alice", "alice@example.com", "a.png"⟩
  else none

/-- Server state whose rate entry for connection "s1" already counts 5
messages in a window starting at time 0. -/
def rateFullState : ServerState :=
  { emptyState with
    messageRateLimits := fun u => if u = "s1" then some ⟨5, 0⟩ else none }

/-- Error action the sendMessage handler emits on a falsy field. -/
def missingFieldsError (sid : String) : Action :=
  .toSocket sid
    (.errorEvent "Chat ID and content are required." "MISSING_FIELDS")

theorem falsyStr_none : falsyStr none = true := rfl

theorem falsyStr_empty : falsyStr (some "") = true := rfl

/-- C7: a sendMessage payload lacking chatId or lacking content is
rejected with code MISSING_FIELDS; the error goes only to the
originating connection (no other connection receives anything from the
emitted actions), no acknowledgement callback is invoked, and the
server state — rate state, room membership, registry and cache — is
returned unchanged. -/
theorem sendMessage_missing_fields (store : String → Option StoredUser)
    (now : Nat) (st : ServerState) (sid : String) (p : SendPayload)
    (cb : Bool) (h : p.chatId = none ∨ p.content = none) :
    sendMessage store now st sid p cb = (st, [missingFieldsError sid]) ∧
    (∀ t, t ≠ sid → ∀ a ∈ (sendMessage store now st sid p cb).2,
      receives st.transportRooms t a = none) ∧
    (∀ q, Action.ack q ∉ (sendMessage store now st sid p cb).2) := by
  have hcond : (falsyStr p.chatId || falsyStr p.content) = true := by
    rcases h with h | h <;> simp [falsyStr, h]
  refine ⟨?_, ?_, ?_⟩
  · simp [sendMessage, hcond, missingFieldsError]
  · intro t ht a ha
    simp only [sendMessage, hcond, if_pos] at ha
    simp only [List.mem_singleton] at ha
    subst ha
    simp [receives, Ne.symm ht]
  · intro q
    simp [sendMessage, hcond]

/-- Witness for C7 at a concrete input: a payload with no chatId is
rejected with MISSING_FIELDS and the state is unchanged. -/
theorem sendMessage_missing_fields_witness :
    sendMessage store1 0 emptyState "s1" ⟨none, some "hi"⟩ true =
      (emptyState, [missingFieldsError "s1"]) :=
  (sendMessage_missing_fields store1 0 emptyState "s1"
    ⟨none, some "hi"⟩ true (Or.inl rfl)).1

/-- C10: a sendMessage payload whose chatId or content is present but
equal to the empty string is rejected with MISSING_FIELDS exactly as if
the field were absent, because the `!chatId || !content` check tests
JavaScript falsiness: the result equals both the MISSING_FIELDS
rejection and the result of the same call with every empty-string field
replaced by an absent one. -/
theorem sendMessage_empty_string_fields (store : String → Option StoredUser)
    (now : Nat) (st : ServerState) (sid : String) (p : SendPayload)
    (cb : Bool) (h : p.chatId = some "" ∨ p.content = some "") :
    sendMessage store now st sid p cb = (st, [missingFieldsError sid]) ∧
    sendMessage store now st sid p cb =
      sendMessage store now st sid
        ⟨if p.chatId = some "" then none else p.chatId,
         if p.content = some "" then none else p.content⟩ cb := by
  have hcond : (falsyStr p.chatId || falsyStr p.content) = true := by
    rcases h with h | h <;> simp [falsyStr, h]
  have hcond' : (falsyStr (if p.chatId = some "" then none else p.chatId) ||
      falsyStr (if p.content = some "" then none else p.content)) = true := by
    rcases h with h | h <;> simp [falsyStr, h]
  constructor
  · simp [sendMessage, hcond, missingFieldsError]
  · simp [sendMessage, hcond, hcond']

/-- Witness for C10 at a concrete input: an empty-string chatId is
rejected identically to an absent chatId. -/
theorem sendMessage_empty_string_fields_witness :
    sendMessage store1 0 emptyState "s1" ⟨some "", some "hi"⟩ true =
      (emptyState, [missingFieldsError "s1"]) :=
  (sendMessage_empty_string_fields store1 0 emptyState "s1"
    ⟨some "", some "hi"⟩ true (Or.inl rfl)).1

/-- Error action the sendMessage handler emits when rate limited. -/
def rateLimitError (sid : String) : Action :=
  .toSocket sid
    (.errorEvent "Rate limit exceeded. Please slow down." "RATE_LIMIT")

theorem isRateLimited_in_window (c t now : Nat) (h : now - t < 1000) :
    isRateLimited (some ⟨c, t⟩) now = (decide (c + 1 > 5), ⟨c + 1, t⟩) := by
  simp only [isRateLimited, Option.getD_some, if_pos h, gt_iff_lt]
  split_ifs with h5 <;> simp [h5]

theorem isRateLimited_first (now : Nat) :
    isRateLimited none now = (false, ⟨1, now⟩) := by
  simp [isRateLimited]

/-- C2: starting from no rate entry, 6 calls whose times all lie within
1000ms of the first call's time yield exactly 5 allowed calls followed
by a rejection; a call arriving 1000ms or more after the window start
starts a new window with count 1 and is allowed; and a sendMessage
event whose rate check fires is answered with an error of code
RATE_LIMIT to the sender only. -/
theorem rateLimiter_window (t : Nat) (ts : List Nat)
    (hlen : ts.length = 5) (hwin : ∀ x ∈ ts, x - t < 1000) :
    (runRateCalls none (t :: ts)).1 =
      [false, false, false, false, false, true] ∧
    (∀ e : RateEntry, ∀ now, 1000 ≤ now - e.timestamp →
      isRateLimited (some e) now = (false, ⟨1, now⟩)) ∧
    (∀ store now st sid chatId content cb, chatId ≠ "" → content ≠ "" →
      (isRateLimited
        (st.messageRateLimits (resolveId st.socketIdToUserId sid)) now).1
        = true →
      (sendMessage store now st sid ⟨some chatId, some content⟩ cb).2 =
        [rateLimitError sid]) := by
  refine ⟨?_, ?_, ?_⟩
  · obtain ⟨a, b, c, d, e, rfl⟩ : ∃ a b c d e, ts = [a, b, c, d, e] := by
      match ts, hlen with
      | [a, b, c, d, e], _ => exact ⟨a, b, c, d, e, rfl⟩
    have ha := hwin a (by simp)
    have hb := hwin b (by simp)
    have hc := hwin c (by simp)
    have hd := hwin d (by simp)
    have he := hwin e (by simp)
    simp [runRateCalls, isRateLimited, ha, hb, hc, hd, he]
  · intro e now h
    have h' : ¬ (now - e.timestamp < 1000) := Nat.not_lt.mpr h
    simp [isRateLimited, h']
  · intro store now st sid chatId content cb hchat hcontent hlim
    have hcond : (falsyStr (some chatId) || falsyStr (some content))
        = false := by
      simp [falsyStr, hchat, hcontent]
    simp only [sendMessage, hcond, Bool.false_eq_true, if_neg,
      not_false_eq_true, hlim, if_pos, rateLimitError]

/-- Witness for C2 at concrete inputs: six calls at times
0, 100, ..., 500 give five successes then a rejection; a call at time
1500 against a window started at 0 with count 6 is allowed with a fresh
count of 1; and a sendMessage against a state already counting 5
messages for "s1" in the current window is answered with RATE_LIMIT. -/
theorem rateLimiter_window_witness :
    (runRateCalls none [0, 100, 200, 300, 400, 500]).1 =
      [false, false, false, false, false, true] ∧
    isRateLimited (some ⟨6, 0⟩) 1500 = (false, ⟨1, 1500⟩) ∧
    (sendMessage store1 999 rateFullState "s1"
      ⟨some "r1", some "hi"⟩ true).2 = [rateLimitError "s1"] := by
  have h := rateLimiter_window 0 [100, 200, 300, 400, 500] rfl (by decide)
  refine ⟨h.1, h.2.1 ⟨6, 0⟩ 1500 (by decide), ?_⟩
  exact h.2.2 store1 999 rateFullState "s1" "r1" "hi" true
    (by decide) (by decide) (by decide)

theorem mem_after_addUserToRoom (rooms : String → Option (Finset String))
    (u r : String) : r ∈ ((addUserToRoom rooms u r) u).getD ∅ := by
  simp [addUserToRoom]

theorem not_mem_after_removeUserFromRoom
    (rooms : String → Option (Finset String)) (u r : String) :
    r ∉ ((removeUserFromRoom rooms u r) u).getD ∅ := by
  simp only [removeUserFromRoom, if_pos]
  cases h : rooms u with
  | none => simp
  | some s =>
    by_cases he : s.erase r = ∅ <;> simp [he, Finset.mem_erase]

theorem getLast?_cons_ne_nil {α : Type} (a : α) (l : List α)
    (h : l ≠ []) : (a :: l).getLast? = l.getLast? := by
  cases l with
  | nil => exact absurd rfl h
  | cons b t => simp [List.getLast?_cons_cons]

/-- C3: after any nonempty sequence of join/leave operations on the
same (user, room) pair, started from an arbitrary membership table, the
user's set contains the room exactly when the last operation was a
join; and whenever a leave empties a user's set, the user's entry is
removed from the table entirely. -/
theorem roomMembership_last_op (rooms : String → Option (Finset String))
    (u r : String) (ops : List RoomOp) (h : ops ≠ []) :
    (r ∈ ((applyRoomOps rooms u r ops) u).getD ∅ ↔
      ops.getLast? = some RoomOp.join) ∧
    (∀ rooms' : String → Option (Finset String), ∀ s : Finset String,
      rooms' u = some s → s.erase r = ∅ →
      (removeUserFromRoom rooms' u r) u = none) := by
  constructor
  · induction ops generalizing rooms with
    | nil => exact absurd rfl h
    | cons op ops ih =>
      cases ops with
      | nil =>
        cases op with
        | join =>
          simp [applyRoomOps, applyRoomOp, mem_after_addUserToRoom]
        | leave =>
          simp [applyRoomOps, applyRoomOp,
            not_mem_after_removeUserFromRoom]
      | cons b t =>
        rw [List.getLast?_cons_cons]
        exact ih (applyRoomOp rooms u r op) (by simp)
  · intro rooms' s hs he
    simp [removeUserFromRoom, hs, he]

/-- Witness for C3 at concrete inputs: after join;leave;join on
("u", "r") from the empty table, "u" is a member of "r"; and a leave
that empties the singleton set for "u" removes the entry. -/
theorem roomMembership_last_op_witness :
    ("r" ∈ ((applyRoomOps (fun _ => none) "u" "r"
        [RoomOp.join, RoomOp.leave, RoomOp.join]) "u").getD ∅ ↔
      ([RoomOp.join, RoomOp.leave, RoomOp.join].getLast? =
        some RoomOp.join)) ∧
    (removeUserFromRoom
      (fun x => if x = "u" then some {"r"} else none) "u" "r") "u"
      = none := by
  have h := roomMembership_last_op (fun _ => none) "u" "r"
    [RoomOp.join, RoomOp.leave, RoomOp.join] (by simp)
  refine ⟨h.1, ?_⟩
  exact h.2 (fun x => if x = "u" then some {"r"} else none) {"r"}
    (by simp) (by decide)

theorem resolveId_ne_empty (m : String → Option String) (sid : String)
    (h : sid ≠ "") : resolveId m sid ≠ "" := by
  unfold resolveId
  cases m sid with
  | none => exact h
  | some u => by_cases hu : u = "" <;> simp [hu, h]

theorem disconnect_eq (st : ServerState) (sid : String)
    (h : resolveId st.socketIdToUserId sid ≠ "") :
    disconnect st sid =
      ({ onlineUsers :=
           del (del st.onlineUsers (resolveId st.socketIdToUserId sid)) sid,
         socketIdToUserId := del st.socketIdToUserId sid,
         userRooms := del st.userRooms (resolveId st.socketIdToUserId sid),
         messageRateLimits := st.messageRateLimits,
         userCache := st.userCache,
         transportRooms := fun r =>
           if r ∈ (st.userRooms
               (resolveId st.socketIdToUserId sid)).getD ∅ then
             (st.transportRooms r).erase sid
           else st.transportRooms r },
       [.broadcastExcept sid
         (.userOffline (resolveId st.socketIdToUserId sid))]) := by
  simp [disconnect, h]

theorem del_del_self {α : Type} (m : String → Option α) (k k' : String) :
    del (del m k) k' k = none := by
  by_cases h : k = k' <;> simp [del, h]

theorem del_self {α : Type} (m : String → Option α) (k : String) :
    del m k k = none := by
  simp [del]

/-- C4: for an arbitrary server state and a nonempty connection id, the
disconnect handler (a total function here, so it cannot throw) leaves
no onlineUsers entry for the resolved identity or the connection id, no
socketIdToUserId entry for the connection id, and no room-membership
entry for the resolved identity; and running it a second time — or for
a connection that was never bound, which the arbitrary starting state
covers — resolves to the connection id itself and again leaves no such
entries, so the handler is idempotent with respect to registry and
membership state. -/
theorem disconnect_idempotent (st : ServerState) (sid : String)
    (h : sid ≠ "") :
    ((disconnect st sid).1.onlineUsers
        (resolveId st.socketIdToUserId sid) = none ∧
      (disconnect st sid).1.onlineUsers sid = none ∧
      (disconnect st sid).1.socketIdToUserId sid = none ∧
      (disconnect st sid).1.userRooms
        (resolveId st.socketIdToUserId sid) = none) ∧
    resolveId (disconnect st sid).1.socketIdToUserId sid = sid ∧
    ((disconnect (disconnect st sid).1 sid).1.onlineUsers sid = none ∧
      (disconnect (disconnect st sid).1 sid).1.socketIdToUserId sid
        = none ∧
      (disconnect (disconnect st sid).1 sid).1.userRooms sid = none ∧
      (disconnect (disconnect st sid).1 sid).1.userRooms
        (resolveId st.socketIdToUserId sid) = none) := by
  have hu : resolveId st.socketIdToUserId sid ≠ "" :=
    resolveId_ne_empty st.socketIdToUserId sid h
  rw [disconnect_eq st sid hu]
  have hres : resolveId (del st.socketIdToUserId sid) sid = sid := by
    simp [resolveId, del]
  have hu2 : resolveId (del st.socketIdToUserId sid) sid ≠ "" := by
    rw [hres]; exact h
  refine ⟨⟨?_, ?_, ?_, ?_⟩, ?_, ?_⟩
  · exact del_del_self st.onlineUsers
      (resolveId st.socketIdToUserId sid) sid
  · exact del_self _ sid
  · exact del_self _ sid
  · exact del_self _ (resolveId st.socketIdToUserId sid)
  · exact hres
  · rw [disconnect_eq _ sid hu2]
    refine ⟨?_, ?_, ?_, ?_⟩
    · exact del_self _ sid
    · exact del_self _ sid
    · simp [hres, del]
    · simp only [hres]
      by_cases he : resolveId st.socketIdToUserId sid = sid
      · simp [he, del]
      · simp [del, he, del_self]

/-- Witness for C4 at a concrete input: after disconnecting connection
"s1" (which had joined room "r1") twice from the empty state, no
registry or membership entry for "s1" remains. -/
theorem disconnect_idempotent_witness :
    (disconnect (disconnect (joinChat emptyState "s1" "r1") "s1").1
        "s1").1.userRooms "s1" = none ∧
    (disconnect (joinChat emptyState "s1" "r1") "s1").1.userRooms "s1"
      = none := by
  have h := disconnect_idempotent (joinChat emptyState "s1" "r1") "s1"
    (by decide)
  refine ⟨h.2.2.2.2.1, ?_⟩
  have h4 := h.1.2.2.2
  simpa [joinChat, emptyState, resolveId] using h4

/-- C5: a profile that misses the cache at time t0 and is found in the
store is fetched from the store and cached with eviction time
t0 + TTL_MS (TTL_MS = 300000 ms = 300 s); every call in
[t0, t0 + TTL_MS) returns it from the cache without consulting the
store and returns the cache itself unchanged — in particular the
entry's eviction time stays t0 + TTL_MS, so a hit does not reset the
TTL — and every call at or after t0 + TTL_MS consults the store
again. -/
theorem cache_ttl (store : String → Option StoredUser)
    (cache : String → Option (CachedUser × Nat)) (t0 : Nat) (u : String)
    (su : StoredUser) (hmiss : cacheGet cache t0 u = none)
    (hstore : store u = some su) :
    (getUserDetails store cache t0 u).result =
      some ⟨u, su.name, su.email, su.avatar⟩ ∧
    (getUserDetails store cache t0 u).storeConsulted = true ∧
    (getUserDetails store cache t0 u).cache u =
      some (⟨u, su.name, su.email, su.avatar⟩, t0 + TTL_MS) ∧
    (∀ t, t0 ≤ t → t < t0 + TTL_MS →
      getUserDetails store (getUserDetails store cache t0 u).cache t u =
        ⟨some ⟨u, su.name, su.email, su.avatar⟩,
         (getUserDetails store cache t0 u).cache, false⟩) ∧
    (∀ t, t0 + TTL_MS ≤ t →
      (getUserDetails store (getUserDetails store cache t0 u).cache t
        u).storeConsulted = true) := by
  have h0 : getUserDetails store cache t0 u =
      ⟨some ⟨u, su.name, su.email, su.avatar⟩,
       upd cache u (⟨u, su.name, su.email, su.avatar⟩, t0 + TTL_MS),
       true⟩ := by
    simp [getUserDetails, hmiss, hstore]
  rw [h0]
  refine ⟨rfl, rfl, by simp [upd], ?_, ?_⟩
  · intro t _ht0 htlt
    have hget : cacheGet
        (upd cache u (⟨u, su.name, su.email, su.avatar⟩, t0 + TTL_MS)) t u
        = some ⟨u, su.name, su.email, su.avatar⟩ := by
      simp [cacheGet, upd, htlt]
    simp [getUserDetails, hget]
  · intro t hge
    have hget : cacheGet
        (upd cache u (⟨u, su.name, su.email, su.avatar⟩, t0 + TTL_MS)) t u
        = none := by
      simp [cacheGet, upd, Nat.not_lt.mpr hge]
    cases hs : store u with
    | none => simp [getUserDetails, hget, hs]
    | some v => simp [getUserDetails, hget, hs]

/-- Witness for C5 at concrete inputs: user "u1" fetched at time 0 from
an empty cache is cached until 300000; a call at 299999 is a cache hit
leaving the cache (and so the eviction time) unchanged; a call at
300000 consults the store again. -/
theorem cache_ttl_witness :
    (getUserDetails store1 (fun _ => none) 0 "u1").result =
      some ⟨"u1", "Alice", "alice@example.com", "a.png"⟩ ∧
    getUserDetails store1
        (getUserDetails store1 (fun _ => none) 0 "u1").cache 299999 "u1" =
      ⟨some ⟨"u1", "Alice", "alice@example.com", "a.png"⟩,
       (getUserDetails store1 (fun _ => none) 0 "u1").cache, false⟩ ∧
    (getUserDetails store1
        (getUserDetails store1 (fun _ => none) 0 "u1").cache 300000
        "u1").storeConsulted = true := by
  have h := cache_ttl store1 (fun _ => none) 0 "u1"
    ⟨"Alice", "alice@example.com", "a.png"⟩ rfl rfl
  exact ⟨h.1, h.2.2.2.1 299999 (by decide) (by decide),
    h.2.2.2.2 300000 (by decide)⟩

/-- C8: a sendMessage that passes validation and the rate limiter but
whose sender profile lookup yields null — the store has no such user
(store errors also surface as null in the source) and the cache has no
valid entry — still broadcasts `receiveMessage`, with the fallback
sender `{_id: userId, name: "Unknown User"}` in place of a profile, and
the miss is not cached: the resulting cache is the input cache. -/
theorem sendMessage_fallback_sender (store : String → Option StoredUser)
    (now : Nat) (st : ServerState) (sid chatId content : String)
    (cb : Bool) (hchat : chatId ≠ "") (hcontent : content ≠ "")
    (hnolimit : (isRateLimited
      (st.messageRateLimits (resolveId st.socketIdToUserId sid)) now).1
      = false)
    (hmiss : cacheGet st.userCache now
      (resolveId st.socketIdToUserId sid) = none)
    (hstore : store (resolveId st.socketIdToUserId sid) = none) :
    (sendMessage store now st sid ⟨some chatId, some content⟩ cb).2 =
      (if cb then
        [Action.toRoom chatId (.receiveMessage
          ⟨chatId, resolveId st.socketIdToUserId sid,
           fallbackSender (resolveId st.socketIdToUserId sid),
           content, now, none⟩),
         Action.ack ⟨true, "Message sent"⟩]
       else
        [Action.toRoom chatId (.receiveMessage
          ⟨chatId, resolveId st.socketIdToUserId sid,
           fallbackSender (resolveId st.socketIdToUserId sid),
           content, now, none⟩)]) ∧
    fallbackSender (resolveId st.socketIdToUserId sid) =
      ⟨resolveId st.socketIdToUserId sid, "Unknown User", none, none⟩ ∧
    (sendMessage store now st sid
      ⟨some chatId, some content⟩ cb).1.userCache = st.userCache := by
  have hcond : (falsyStr (some chatId) || falsyStr (some content))
      = false := by
    simp [falsyStr, hchat, hcontent]
  have hfr : getUserDetails store st.userCache now
      (resolveId st.socketIdToUserId sid) =
      ⟨none, st.userCache, true⟩ := by
    simp [getUserDetails, hmiss, hstore]
  refine ⟨?_, rfl, ?_⟩
  · cases cb <;>
      simp [sendMessage, hcond, hnolimit, hfr, fallbackSender]
  · cases cb <;>
      simp [sendMessage, hcond, hnolimit, hfr]

/-- Witness for C8 at a concrete input: an unauthenticated connection
"s1" (so the resolved identity "s1" is absent from the store) sends a
valid message; the broadcast carries the fallback sender and the cache
stays empty. -/
theorem sendMessage_fallback_sender_witness :
    (sendMessage store1 0 emptyState "s1"
      ⟨some "r1", some "hi"⟩ true).2 =
      [Action.toRoom "r1" (.receiveMessage
        ⟨"r1", "s1", fallbackSender "s1", "hi", 0, none⟩),
       Action.ack ⟨true, "Message sent"⟩] ∧
    (sendMessage store1 0 emptyState "s1"
      ⟨some "r1", some "hi"⟩ true).1.userCache = emptyState.userCache := by
  have h := sendMessage_fallback_sender store1 0 emptyState "s1" "r1"
    "hi" true (by decide) (by decide) (by decide) rfl rfl
  refine ⟨?_, h.2.2⟩
  have h1 := h.1
  simpa [emptyState, resolveId] using h1

/-- C9: when a userId is bound to connection A and was later rebound to
a still-live connection B (so onlineUsers maps the userId to B), A's
disconnect still resolves to that userId, deletes the userId's
online-presence entry, deletes the userId's entire room-membership
entry, and broadcasts userOffline for the userId — while B's binding to
the userId remains — so A's disconnect tears down state that now
belongs to B. -/
theorem disconnect_clobbers_rebound_user (st : ServerState)
    (a b u : String) (hA : st.socketIdToUserId a = some u)
    (hu : u ≠ "") (hB : st.socketIdToUserId b = some u) (hBA : b ≠ a)
    (_honline : st.onlineUsers u = some b) :
    resolveId st.socketIdToUserId a = u ∧
    (disconnect st a).1.onlineUsers u = none ∧
    (disconnect st a).1.userRooms u = none ∧
    (disconnect st a).2 = [.broadcastExcept a (.userOffline u)] ∧
    (disconnect st a).1.socketIdToUserId b = some u := by
  have hres : resolveId st.socketIdToUserId a = u := by
    simp [resolveId, hA, hu]
  have hu' : resolveId st.socketIdToUserId a ≠ "" := by
    rw [hres]; exact hu
  rw [disconnect_eq st a hu']
  refine ⟨hres, ?_, ?_, ?_, ?_⟩
  · rw [hres]; exact del_del_self st.onlineUsers u a
  · rw [hres]; exact del_self st.userRooms u
  · rw [hres]
  · simp [del, hBA, hB]

/-- Witness for C9 at concrete inputs: "u1" authenticates on "sA",
joins room "r1", then authenticates on "sB"; when "sA" disconnects, the
presence and membership entries of "u1" are gone and userOffline "u1"
is broadcast, although "sB" is still bound to "u1". -/
theorem disconnect_clobbers_rebound_user_witness :
    ((disconnect (authenticate store1 0
        (joinChat (authenticate store1 0 emptyState "sA" "u1") "sA" "r1")
        "sB" "u1") "sA").1.onlineUsers "u1" = none ∧
     (disconnect (authenticate store1 0
        (joinChat (authenticate store1 0 emptyState "sA" "u1") "sA" "r1")
        "sB" "u1") "sA").1.userRooms "u1" = none) ∧
    (disconnect (authenticate store1 0
        (joinChat (authenticate store1 0 emptyState "sA" "u1") "sA" "r1")
        "sB" "u1") "sA").1.socketIdToUserId "sB" = some "u1" := by
  have h := disconnect_clobbers_rebound_user
    (authenticate store1 0
      (joinChat (authenticate store1 0 emptyState "sA" "u1") "sA" "r1")
      "sB" "u1") "sA" "sB" "u1"
    (by decide) (by decide) (by decide) (by decide) (by decide)
  exact ⟨⟨h.2.1, h.2.2.1⟩, h.2.2.2.2⟩

theorem getD_getLast?_cons {α : Type} (a x : α) (l : List α) :
    ((a :: l).getLast?).getD x = (l.getLast?).getD a := by
  cases l with
  | nil => rfl
  | cons b t =>
    rw [List.getLast?_cons_cons,
      List.getLast?_eq_getLast_of_ne_nil (l := b :: t) (by simp)]
    rfl

theorem resolveId_applyAuths (store : String → Option StoredUser)
    (now : Nat) (st : ServerState) (sid : String) (l : List String) :
    resolveId ((applyAuths store now st sid l).socketIdToUserId) sid =
      (lastTruthy l).getD (resolveId st.socketIdToUserId sid) := by
  induction l generalizing st with
  | nil => rfl
  | cons u us ih =>
    by_cases hu : u = ""
    · subst hu
      have h1 : applyAuths store now st sid ("" :: us) =
          applyAuths store now st sid us := by
        simp [applyAuths, authenticate]
      have h2 : lastTruthy ("" :: us) = lastTruthy us := by
        simp [lastTruthy]
      rw [h1, ih st, h2]
    · have h1 : applyAuths store now st sid (u :: us) =
          applyAuths store now (authenticate store now st sid u) sid us :=
        rfl
      rw [h1, ih]
      have h2 : resolveId
          (authenticate store now st sid u).socketIdToUserId sid = u := by
        simp [authenticate, hu, resolveId, upd]
      have h3 : lastTruthy (u :: us) =
          (u :: us.filter (fun v => v ≠ "")).getLast? := by
        simp [lastTruthy, hu]
      rw [h2, h3, getD_getLast?_cons]
      rfl

/-- C6: the identity every event handler uses is
`socketIdToUserId.get(socket.id) || socket.id`. After any sequence of
authenticate events on a connection, that resolution yields the userId
of the most recent authenticate carrying a truthy userId, and the prior
resolution (the connection id itself on a fresh connection) otherwise;
and joinChat, leaveChat, sendMessage (for its rate-limit key),
markMessagesRead and disconnect all key their effects by exactly that
resolved identity, so unauthenticated connections are rate-limited and
room-tracked under the connection id. -/
theorem handlers_use_resolved_identity :
    (∀ (store : String → Option StoredUser) (now : Nat)
        (st : ServerState) (sid : String) (l : List String),
      resolveId ((applyAuths store now st sid l).socketIdToUserId) sid =
        (lastTruthy l).getD (resolveId st.socketIdToUserId sid)) ∧
    (∀ (st : ServerState) (sid : String),
      st.socketIdToUserId sid = none →
      resolveId st.socketIdToUserId sid = sid) ∧
    (∀ (st : ServerState) (sid c : String),
      (joinChat st sid c).userRooms =
      addUserToRoom st.userRooms (resolveId st.socketIdToUserId sid) c) ∧
    (∀ (st : ServerState) (sid c : String),
      (leaveChat st sid c).userRooms =
      removeUserFromRoom st.userRooms
        (resolveId st.socketIdToUserId sid) c) ∧
    (∀ (store : String → Option StoredUser) (now : Nat)
        (st : ServerState) (sid chatId content : String) (cb : Bool),
      chatId ≠ "" → content ≠ "" →
      (sendMessage store now st sid
          ⟨some chatId, some content⟩ cb).1.messageRateLimits =
        upd st.messageRateLimits (resolveId st.socketIdToUserId sid)
          (isRateLimited (st.messageRateLimits
            (resolveId st.socketIdToUserId sid)) now).2) ∧
    (∀ (st : ServerState) (sid c : String),
      (markMessagesRead st sid c).2 =
      [.toRoom c
        (.messagesRead c (resolveId st.socketIdToUserId sid))]) ∧
    (∀ (st : ServerState) (sid : String), (disconnect st sid).2 =
      [.broadcastExcept sid
        (.userOffline (resolveId st.socketIdToUserId sid))]) := by
  refine ⟨resolveId_applyAuths, ?_, ?_, ?_, ?_, ?_, ?_⟩
  · intro st sid h
    simp [resolveId, h]
  · intro st sid c
    rfl
  · intro st sid c
    rfl
  · intro store now st sid chatId content cb hchat hcontent
    have hcond : (falsyStr (some chatId) || falsyStr (some content))
        = false := by
      simp [falsyStr, hchat, hcontent]
    by_cases hrl : (isRateLimited (st.messageRateLimits
        (resolveId st.socketIdToUserId sid)) now).1 = true <;>
      simp [sendMessage, hcond, hrl]
  · intro st sid c
    rfl
  · intro st sid
    simp [disconnect]

/-- Witness for C6 at concrete inputs: after authenticating "sA" first
as "u1" and then with a falsy userId, the resolved identity is still
"u1"; on a fresh connection it is the connection id; and a concrete
sendMessage from the unauthenticated connection "s1" records its rate
entry under "s1". -/
theorem handlers_use_resolved_identity_witness :
    resolveId ((applyAuths store1 0 emptyState "sA"
        ["u1", ""]).socketIdToUserId) "sA" =
      (lastTruthy ["u1", ""]).getD
        (resolveId emptyState.socketIdToUserId "sA") ∧
    resolveId emptyState.socketIdToUserId "s1" = "s1" ∧
    (sendMessage store1 0 emptyState "s1"
        ⟨some "r1", some "hi"⟩ true).1.messageRateLimits =
      upd emptyState.messageRateLimits
        (resolveId emptyState.socketIdToUserId "s1")
        (isRateLimited (emptyState.messageRateLimits
          (resolveId emptyState.socketIdToUserId "s1")) 0).2 := by
  refine ⟨handlers_use_resolved_identity.1 store1 0 emptyState "sA"
    ["u1", ""], ?_, ?_⟩
  · exact handlers_use_resolved_identity.2.1 emptyState "s1" rfl
  · exact handlers_use_resolved_identity.2.2.2.2.1 store1 0 emptyState
      "s1" "r1" "hi" true (by decide) (by decide)

/-- Payload the socket sendMessage handler broadcasts for a valid,
non-rate-limited event: the resolved identity, the cached/fetched
sender profile or the fallback sender, the content, the current time,
and no status key. -/
def sendMessageBroadcast (store : String → Option StoredUser) (now : Nat)
    (st : ServerState) (sid chatId content : String) : MessagePayload :=
  let u := resolveId st.socketIdToUserId sid
  let fr := getUserDetails store st.userCache now u
  ⟨chatId, u,
   (match fr.result with
    | some c => c.toSender
    | none => fallbackSender u),
   content, now, none⟩

/-- C1 counterexample: a concrete sendMessage event that passes field
validation and the rate limiter. The handler's emitted actions contain
no persistence-bridge call, and the broadcast payload carries
status = none rather than status = "sent" — the persistence and the
status field the claim describes exist only in the HTTP controller's
broadcast — so the claim is false of the socket handler. -/
theorem sendMessage_persists_counterexample :
    ((falsyStr (some "r1") || falsyStr (some "hi")) = false ∧
     (isRateLimited (emptyState.messageRateLimits
       (resolveId emptyState.socketIdToUserId "s1")) 0).1 = false) ∧
    (sendMessage store1 0 emptyState "s1"
        ⟨some "r1", some "hi"⟩ true).2 =
      [Action.toRoom "r1" (.receiveMessage
        ⟨"r1", "s1", fallbackSender "s1", "hi", 0, none⟩),
       Action.ack ⟨true, "Message sent"⟩] ∧
    (∀ a ∈ (sendMessage store1 0 emptyState "s1"
        ⟨some "r1", some "hi"⟩ true).2,
      ∀ c s x, a ≠ Action.persist c s x) ∧
    (∀ m : MessagePayload,
      Action.toRoom "r1" (SEvent.receiveMessage m) ∈
        (sendMessage store1 0 emptyState "s1"
          ⟨some "r1", some "hi"⟩ true).2 →
      m.status = none ∧ m.status ≠ some "sent") := by
  have hact : (sendMessage store1 0 emptyState "s1"
      ⟨some "r1", some "hi"⟩ true).2 =
      [Action.toRoom "r1" (.receiveMessage
        ⟨"r1", "s1", fallbackSender "s1", "hi", 0, none⟩),
       Action.ack ⟨true, "Message sent"⟩] := by decide
  refine ⟨⟨by decide, by decide⟩, hact, ?_, ?_⟩
  · intro a ha c s x
    rw [hact] at ha
    simp only [List.mem_cons, List.mem_singleton, List.not_mem_nil,
      or_false] at ha
    rcases ha with rfl | rfl <;> simp
  · intro m hm
    rw [hact] at hm
    rcases List.mem_cons.mp hm with h | h
    · simp only [Action.toRoom.injEq, SEvent.receiveMessage.injEq,
        true_and] at h
      subst h
      exact ⟨rfl, by simp⟩
    · rw [List.mem_singleton] at h
      simp at h

/-- C1 (amended): for every sendMessage event that passes field
validation and the rate limiter, the handler broadcasts receiveMessage
via io.to(chatId) — delivered to every transport member of the room,
the sender included whenever it is a member — carrying the resolved
sender identity, the sender profile (or fallback), the content and the
creation timestamp, and acknowledges the caller when a callback was
supplied; it performs no persistence-bridge call and the payload
carries no status field. -/
theorem sendMessage_broadcast_without_persist
    (store : String → Option StoredUser) (now : Nat) (st : ServerState)
    (sid chatId content : String) (cb : Bool)
    (hchat : chatId ≠ "") (hcontent : content ≠ "")
    (hnolimit : (isRateLimited
      (st.messageRateLimits (resolveId st.socketIdToUserId sid)) now).1
      = false) :
    (sendMessage store now st sid ⟨some chatId, some content⟩ cb).2 =
      (if cb then
        [Action.toRoom chatId (.receiveMessage
          (sendMessageBroadcast store now st sid chatId content)),
         Action.ack ⟨true, "Message sent"⟩]
       else
        [Action.toRoom chatId (.receiveMessage
          (sendMessageBroadcast store now st sid chatId content))]) ∧
    (sendMessageBroadcast store now st sid chatId content).status
      = none ∧
    (∀ a ∈ (sendMessage store now st sid
        ⟨some chatId, some content⟩ cb).2,
      ∀ c s x, a ≠ Action.persist c s x) ∧
    (∀ t ∈ st.transportRooms chatId,
      receives st.transportRooms t
        (Action.toRoom chatId (.receiveMessage
          (sendMessageBroadcast store now st sid chatId content))) =
        some (.receiveMessage
          (sendMessageBroadcast store now st sid chatId content))) := by
  have hcond : (falsyStr (some chatId) || falsyStr (some content))
      = false := by
    simp [falsyStr, hchat, hcontent]
  have hact : (sendMessage store now st sid
      ⟨some chatId, some content⟩ cb).2 =
      (if cb then
        [Action.toRoom chatId (.receiveMessage
          (sendMessageBroadcast store now st sid chatId content)),
         Action.ack ⟨true, "Message sent"⟩]
       else
        [Action.toRoom chatId (.receiveMessage
          (sendMessageBroadcast store now st sid chatId content))]) := by
    cases cb <;>
      simp [sendMessage, hcond, hnolimit, sendMessageBroadcast]
  refine ⟨hact, rfl, ?_, ?_⟩
  · intro a ha c s x
    rw [hact] at ha
    cases cb <;> simp at ha
    · rcases ha with rfl; simp
    · rcases ha with rfl | rfl <;> simp
  · intro t ht
    simp [receives, ht]

/-- Witness for the amended C1 at concrete inputs: connection "s1" has
joined room "r1" and sends a valid message; the broadcast and
acknowledgement are emitted, and the sender itself, as a member of the
transport room, receives the broadcast. -/
theorem sendMessage_broadcast_without_persist_witness :
    (sendMessage store1 0 (joinChat emptyState "s1" "r1") "s1"
        ⟨some "r1", some "hi"⟩ true).2 =
      [Action.toRoom "r1" (.receiveMessage
        (sendMessageBroadcast store1 0 (joinChat emptyState "s1" "r1")
          "s1" "r1" "hi")),
       Action.ack ⟨true, "Message sent"⟩] ∧
    receives (joinChat emptyState "s1" "r1").transportRooms "s1"
        (Action.toRoom "r1" (.receiveMessage
          (sendMessageBroadcast store1 0 (joinChat emptyState "s1" "r1")
            "s1" "r1" "hi"))) =
      some (.receiveMessage
        (sendMessageBroadcast store1 0 (joinChat emptyState "s1" "r1")
          "s1" "r1" "hi")) := by
  have h := sendMessage_broadcast_without_persist store1 0
    (joinChat emptyState "s1" "r1") "s1" "r1" "hi" true
    (by decide) (by decide) (by decide)
  refine ⟨by simpa using h.1, ?_⟩
  exact h.2.2.2 "s1" (by decide)

end MentorMatrix
